import Mathlib

/-!
Verification of the craffft-backend multi-table Airtable→SQLite sync layer.

Shallow embedding of `src/airtable_csv.py` (the per-table handle,
`AirtableCSVManager`) and `src/airtable_multi_manager.py` (the coordinator,
`AirtableMultiManager`).  Remote fetches, HTTP metadata responses and the
SQLite backend are modelled as explicit parameters (oracles); raised Python
exceptions are modelled with `Except`; Python `None` with `Option`.
-/

namespace Craffft

/-- A loosely-typed Airtable field value: string, number, boolean or null. -/
inductive FieldValue
  | str (s : String)
  | num (n : Int)
  | boolean (b : Bool)
  | null
deriving DecidableEq, Repr

/-- One fetched Airtable record: its `fields` mapping, field name → value.
Python dict ⇒ association list with unique keys, insertion ordered. -/
structure AirtableRecord where
  fields : List (String × FieldValue)
deriving DecidableEq, Repr

/-- `str(value)` conversion the Python `csv` writer applies to each cell:
`None` becomes the empty string, booleans print as `True`/`False`. -/
def pyStr : FieldValue → String
  | .str s => s
  | .num n => toString n
  | .boolean b => if b then "True" else "False"
  | .null => ""

/-- Double every double-quote character (`s.replace('"', '""')`). -/
def doubleQuotesAux : List Char → List Char
  | [] => []
  | c :: cs => if c = '"' then '"' :: '"' :: doubleQuotesAux cs else c :: doubleQuotesAux cs

/-- String form of `doubleQuotesAux`. -/
def doubleQuotes (s : String) : String := String.mk (doubleQuotesAux s.data)

/-- Python `csv` default dialect (QUOTE_MINIMAL): a cell is wrapped in quotes
iff it contains the delimiter, a quote character, or a line break. -/
def needsQuoting (s : String) : Bool :=
  s.data.any (fun c => c = ',' || c = '"' || c = '\n' || c = '\r')

/-- Serialization of one cell by the Python `csv` writer: quote-wrap (doubling
inner quotes) exactly when `needsQuoting`. -/
def csvEscapeField (s : String) : String :=
  if needsQuoting s then "\"" ++ doubleQuotes s ++ "\"" else s

/-- Join cells with the `,` delimiter (Python `csv` default). -/
def joinComma : List String → String
  | [] => ""
  | [s] => s
  | s :: rest => s ++ "," ++ joinComma rest

/-- A standard CSV reader for one serialized row (RFC 4180 / Python `csv`
reader): fields split on unquoted commas, a quoted field may contain commas,
and a doubled quote inside a quoted field decodes to one quote character.
The `Bool` flag records whether the reader is inside a quoted section. -/
def parseCSVRowAux : Bool → List Char → List Char → List String
  | false, acc, [] => [String.mk acc.reverse]
  | false, acc, ',' :: cs => String.mk acc.reverse :: parseCSVRowAux false [] cs
  | false, acc, '"' :: cs => parseCSVRowAux true acc cs
  | false, acc, c :: cs => parseCSVRowAux false (c :: acc) cs
  | true, acc, [] => [String.mk acc.reverse]
  | true, acc, '"' :: '"' :: cs => parseCSVRowAux true ('"' :: acc) cs
  | true, acc, '"' :: cs => parseCSVRowAux false acc cs
  | true, acc, c :: cs => parseCSVRowAux true (c :: acc) cs

/-- Parse one serialized CSV row back into its cell values. -/
def parseCSVRow (s : String) : List String := parseCSVRowAux false [] s.data

/-- `record_comma_check` body, per value: a value is touched only when it is a
string AND contains a comma; then its double quotes are doubled
(`value.replace('"', '""')`).  No quote wrapping happens here. -/
def commaCheckValue : FieldValue → FieldValue
  | .str s => if s.data.contains ',' then .str (doubleQuotes s) else .str s
  | v => v

/-- `AirtableCSVManager.record_comma_check` (src/airtable_csv.py lines 67–78). -/
def record_comma_check (record : AirtableRecord) : AirtableRecord :=
  ⟨record.fields.map (fun kv => (kv.1, commaCheckValue kv.2))⟩

/-- The field names of one record (`record['fields'].keys()`). -/
def recordKeys (record : AirtableRecord) : List String := record.fields.map Prod.fst

/-- Add one name to an accumulated name list if not already present
(set-union step, in a deterministic first-seen order). -/
def insertFieldName (acc : List String) (n : String) : List String :=
  if n ∈ acc then acc else acc ++ [n]

/-- `fieldnames`: the union of all field names across all fetched records
(`fieldnames.update(record['fields'].keys())` over a `set`, then `list(...)`;
the order is arbitrary in Python, deterministic first-seen order here). -/
def unionFieldNames (records : List AirtableRecord) : List String :=
  ((records.map recordKeys).flatten).foldl insertFieldName []

/-- One cell written by `csv.DictWriter.writerow`: look the column up in the
row's fields, missing keys yield the writer's `restval` (empty string). -/
def csvCell (fields : List (String × FieldValue)) (name : String) : String :=
  csvEscapeField (pyStr (((fields.find? (fun kv => kv.1 == name)).map Prod.snd).getD .null))

/-- One serialized data row of `csv.DictWriter` (without the line terminator). -/
def csvRowString (fieldnames : List String) (fields : List (String × FieldValue)) : String :=
  joinComma (fieldnames.map (csvCell fields))

/-- The full CSV text produced inside `update_csv_from_airtable`:
`writer.writeheader()` then one `writer.writerow(record['fields'])` per
record; line terminator is the Python `csv` default. -/
def csvSerialize (fieldnames : List String) (records : List AirtableRecord) : String :=
  joinComma (fieldnames.map csvEscapeField) ++ "\r\n" ++
    String.join (records.map (fun r => csvRowString fieldnames r.fields ++ "\r\n"))

/-- `AirtableCSVManager` (src/airtable_csv.py lines 9–14).  The shared SQLite
storage handle is represented by an identifying `Nat`; `none` models a manager
constructed without a storage backend. -/
structure AirtableCSVManager where
  base_id : String
  table_name : String
  api_key : String
  sqlite_storage : Option Nat
deriving DecidableEq, Repr

/-- Outcome of one `update_csv_from_airtable` call: the returned
`Optional[str]` plus the `import_csv_rows` side effects performed, each a
(table name, csv data) pair. -/
structure SyncResult where
  result : Option String
  writes : List (String × String)
deriving DecidableEq, Repr

/-- `AirtableCSVManager.update_csv_from_airtable` (src/airtable_csv.py lines
17–45), with the already-fetched record list (`airtable.get_all()`) passed in
as a parameter. -/
def update_csv_from_airtable (mgr : AirtableCSVManager) (records : List AirtableRecord) :
    SyncResult :=
  if records = [] then ⟨none, []⟩
  else
    let fieldnames := unionFieldNames records
    let csv_data := csvSerialize fieldnames (records.map record_comma_check)
    ⟨some ("Successfully updated DB from Airtable for table " ++ mgr.table_name ++ "."),
     if mgr.sqlite_storage.isSome then [(mgr.table_name, csv_data)] else []⟩

/-- The SQLite backend's read operations (external collaborator `Storage`),
modelled as an oracle consulted by the per-table forwarding methods. -/
structure StorageModel where
  find_row_by_column : String → String → String → Option (List (String × FieldValue))
  find_value_by_row_and_column : String → String → String → String → Option FieldValue
  exec_sql : String → String → Option (List (List (String × FieldValue)))

/-- `AirtableCSVManager.get_row` (src/airtable_csv.py lines 48–51). -/
def get_row (st : StorageModel) (mgr : AirtableCSVManager) (column_containing_reference reference_value : String) :
    Option (List (String × FieldValue)) :=
  match mgr.sqlite_storage with
  | some _ => st.find_row_by_column mgr.table_name column_containing_reference reference_value
  | none => none

/-- `AirtableCSVManager.get_value_by_row_and_column` (src/airtable_csv.py lines 53–56). -/
def get_value_by_row_and_column (st : StorageModel) (mgr : AirtableCSVManager)
    (column_containing_reference reference_value target_column : String) : Option FieldValue :=
  match mgr.sqlite_storage with
  | some _ =>
    st.find_value_by_row_and_column mgr.table_name column_containing_reference reference_value target_column
  | none => none

/-- `AirtableCSVManager.execute_sql_query` (src/airtable_csv.py lines 58–65). -/
def manager_execute_sql_query (st : StorageModel) (mgr : AirtableCSVManager) (sql_query : String) :
    Option (List (List (String × FieldValue))) :=
  match mgr.sqlite_storage with
  | some _ => st.exec_sql mgr.table_name sql_query
  | none => none

/-- Python dict assignment `d[k] = v`: replace in place if the key is present,
otherwise append (dicts preserve insertion order and keep keys unique). -/
def dictInsert {α : Type} (d : List (String × α)) (k : String) (v : α) : List (String × α) :=
  if d.any (fun kv => kv.1 == k) then
    d.map (fun kv => if kv.1 == k then (k, v) else kv)
  else d ++ [(k, v)]

/-- Python `list.remove`: drop the first occurrence (the source guards the
call with a membership test, so the absent case never raises). -/
def removeFirst : List String → String → List String
  | [], _ => []
  | x :: xs, n => if x = n then xs else x :: removeFirst xs n

/-- `AirtableMultiManager` (src/airtable_multi_manager.py lines 14–36): table
name list, dict of per-table managers, and the one shared storage handle
(`sqlite_storage or SQLiteStorage()` always resolves to a storage). -/
structure AirtableMultiManager where
  api_key : String
  base_id : String
  table_names : List String
  managers : List (String × AirtableCSVManager)
  sqlite_storage : Nat
deriving DecidableEq, Repr

/-- A fresh `AirtableCSVManager` bound to the shared storage, as built by
`_initialize_managers` and `add_table`. -/
def mkCSVManager (base_id table_name api_key : String) (storage : Nat) : AirtableCSVManager :=
  ⟨base_id, table_name, api_key, some storage⟩

/-- `AirtableMultiManager.__init__` + `_initialize_managers`
(src/airtable_multi_manager.py lines 14–46).  `table_names = none` selects the
default table list; `sqlite_storage or SQLiteStorage()` is modelled by
resolving the optional storage argument against a fresh handle id. -/
def mkMultiManager (api_key base_id : String) (table_names : Option (List String))
    (sqlite_storage : Option Nat) (freshStorage : Nat) : AirtableMultiManager :=
  let storage := sqlite_storage.getD freshStorage
  let names := table_names.getD ["DataHub_Craffft"]
  { api_key := api_key, base_id := base_id, table_names := names,
    managers := names.foldl (fun d n => dictInsert d n (mkCSVManager base_id n api_key storage)) [],
    sqlite_storage := storage }

/-- `AirtableMultiManager.add_table` (src/airtable_multi_manager.py lines 48–62). -/
def add_table (m : AirtableMultiManager) (table_name : String) : AirtableMultiManager :=
  { m with
    table_names :=
      if table_name ∈ m.table_names then m.table_names else m.table_names ++ [table_name],
    managers :=
      dictInsert m.managers table_name
        (mkCSVManager m.base_id table_name m.api_key m.sqlite_storage) }

/-- `AirtableMultiManager.get_manager` (src/airtable_multi_manager.py lines 64–74):
`self.managers.get(table_name)`. -/
def get_manager (m : AirtableMultiManager) (table_name : String) : Option AirtableCSVManager :=
  (m.managers.find? (fun kv => kv.1 == table_name)).map Prod.snd

/-- `AirtableMultiManager.remove_table` (src/airtable_multi_manager.py lines
146–161): returns whether removal happened, plus the updated state. -/
def remove_table (m : AirtableMultiManager) (table_name : String) :
    Bool × AirtableMultiManager :=
  if m.managers.any (fun kv => kv.1 == table_name) then
    (true,
     { m with managers := m.managers.filter (fun kv => kv.1 != table_name),
              table_names := removeFirst m.table_names table_name })
  else (false, m)

/-- `AirtableMultiManager.get_value` (src/airtable_multi_manager.py lines 269–286). -/
def multi_get_value (st : StorageModel) (m : AirtableMultiManager)
    (table_name column_containing_reference reference_value target_column : String) :
    Option FieldValue :=
  match get_manager m table_name with
  | some mgr => get_value_by_row_and_column st mgr column_containing_reference reference_value target_column
  | none => none

/-- `AirtableMultiManager.execute_sql_query` (src/airtable_multi_manager.py lines 288–296). -/
def multi_execute_sql_query (st : StorageModel) (m : AirtableMultiManager)
    (table_name sql_query : String) : Option (List (List (String × FieldValue))) :=
  match get_manager m table_name with
  | some mgr => manager_execute_sql_query st mgr sql_query
  | none => none

/-- Modelled from the spec: the coordinator-level `lookup_row` forwarding is
not in `src/` (only the per-table handle's `get_row` is); spec §4.2 specifies
it as pure forwarding to the named handle, with an unknown table name
yielding a null result. -/
def multi_lookup_row (st : StorageModel) (m : AirtableMultiManager)
    (table_name column_containing_reference reference_value : String) :
    Option (List (String × FieldValue)) :=
  match get_manager m table_name with
  | some mgr => get_row st mgr column_containing_reference reference_value
  | none => none

/-- `AirtableMultiManager.update_csv_from_airtable` (src/airtable_multi_manager.py
lines 91–104).  The remote fetch is an oracle, table name → records fetched or
exception raised; an unknown table returns `None` without consulting it. -/
def multi_update_csv_from_airtable (fetch : String → Except String (List AirtableRecord))
    (m : AirtableMultiManager) (table_name : String) : Except String SyncResult :=
  match get_manager m table_name with
  | some mgr =>
    match fetch table_name with
    | .ok records => .ok (update_csv_from_airtable mgr records)
    | .error e => .error e
  | none => .ok ⟨none, []⟩

/-- The `try/except` body of `update_all_tables`:
`result if result else "Failed to update"`, or the captured `f"Error: ..."`. -/
def updateOutcome : Except String SyncResult → String
  | .ok r =>
    match r.result with
    | some msg => msg
    | none => "Failed to update"
  | .error e => "Error: " ++ e

/-- `AirtableMultiManager.update_all_tables` (src/airtable_multi_manager.py
lines 121–135): one outcome per key of `self.managers`, in dict order. -/
def update_all_tables (fetch : String → Except String (List AirtableRecord))
    (m : AirtableMultiManager) : List (String × String) :=
  m.managers.map (fun kv => (kv.1, updateOutcome (multi_update_csv_from_airtable fetch m kv.1)))

/-- The metadata endpoint's reply, once the transport succeeded: HTTP status
and the table names parsed from the JSON body. -/
structure MetaResponse where
  status_code : Nat
  tables : List String
deriving DecidableEq, Repr

/-- `AirtableMultiManager.get_tables_from_base` (src/airtable_multi_manager.py
lines 208–244): the `requests.get` call is an oracle — transport exception or
response; only a 200 status yields the parsed names. -/
def get_tables_from_base (response : Except String MetaResponse) : Option (List String) :=
  match response with
  | .ok r => if r.status_code = 200 then some r.tables else none
  | .error _ => none

/-- `AirtableMultiManager.discover_and_add_tables_from_base`
(src/airtable_multi_manager.py lines 246–267): on a truthy discovery result,
`add_table` each name and record success; `if table_names:` is false for both
`None` and the empty list, leaving the result dict empty. -/
def discover_and_add_tables_from_base (response : Except String MetaResponse)
    (m : AirtableMultiManager) : List (String × Bool) × AirtableMultiManager :=
  match get_tables_from_base response with
  | some names =>
    if names = [] then ([], m)
    else names.foldl (fun acc n => (dictInsert acc.1 n true, add_table acc.2 n)) ([], m)
  | none => ([], m)

/-- One coordinator-mutating operation, for invariant preservation. -/
inductive CoordinatorOp
  | addT (table_name : String)
  | removeT (table_name : String)
  | discover (response : Except String MetaResponse)

/-- Apply one operation to the coordinator state. -/
def applyOp (m : AirtableMultiManager) : CoordinatorOp → AirtableMultiManager
  | .addT n => add_table m n
  | .removeT n => (remove_table m n).2
  | .discover r => (discover_and_add_tables_from_base r m).2

/-- Apply a sequence of operations. -/
def applyOps (m : AirtableMultiManager) (ops : List CoordinatorOp) : AirtableMultiManager :=
  ops.foldl applyOp m

/-- The bijection invariant of the coordinator: the registered table-name list
is duplicate-free and is a permutation of the keys of the managers dict, so
each name corresponds to exactly one handle and vice versa. -/
def CoordinatorInvariant (m : AirtableMultiManager) : Prop :=
  m.table_names.Nodup ∧ m.table_names.Perm (m.managers.map Prod.fst)

instance (m : AirtableMultiManager) : Decidable (CoordinatorInvariant m) :=
  inferInstanceAs (Decidable (_ ∧ _))

/-! ### Supporting lemmas about the dict model -/

theorem any_key_eq_true_iff {α : Type} (d : List (String × α)) (k : String) :
    d.any (fun kv => kv.1 == k) = true ↔ k ∈ d.map Prod.fst := by
  simp [List.any_eq_true, List.mem_map]

theorem keys_map_replace {α : Type} (d : List (String × α)) (k : String) (v : α) :
    (d.map (fun kv => if kv.1 == k then (k, v) else kv)).map Prod.fst = d.map Prod.fst := by
  induction d with
  | nil => rfl
  | cons kv rest ih =>
    simp only [List.map_cons, ih]
    by_cases h : kv.1 = k
    · simp [h]
    · simp [h]

theorem keys_dictInsert {α : Type} (d : List (String × α)) (k : String) (v : α) :
    (dictInsert d k v).map Prod.fst =
      if k ∈ d.map Prod.fst then d.map Prod.fst else d.map Prod.fst ++ [k] := by
  unfold dictInsert
  by_cases h : k ∈ d.map Prod.fst
  · rw [if_pos ((any_key_eq_true_iff d k).mpr h), if_pos h]
    exact keys_map_replace d k v
  · rw [if_neg (fun hc => h ((any_key_eq_true_iff d k).mp hc)), if_neg h]
    simp

theorem find?_map_replace {α : Type} (d : List (String × α)) (k : String) (v : α)
    (h : d.any (fun kv => kv.1 == k) = true) :
    (d.map (fun kv => if kv.1 == k then (k, v) else kv)).find? (fun kv => kv.1 == k) =
      some (k, v) := by
  induction d with
  | nil => simp at h
  | cons kv rest ih =>
    by_cases hk : kv.1 = k
    · simp [List.find?, hk]
    · simp only [List.any_cons] at h
      have hrest : rest.any (fun kv => kv.1 == k) = true := by
        rcases Bool.or_eq_true_iff.mp h with h1 | h1
        · exact absurd (by simpa using h1) hk
        · exact h1
      have hne : (kv.1 == k) = false := by simpa using hk
      simp only [List.map_cons, List.find?, hne, Bool.false_eq_true, if_false]
      exact ih hrest

theorem find?_append_key {α : Type} (d : List (String × α)) (k : String) (v : α)
    (h : d.any (fun kv => kv.1 == k) = false) :
    (d ++ [(k, v)]).find? (fun kv => kv.1 == k) = some (k, v) := by
  induction d with
  | nil => simp [List.find?]
  | cons kv rest ih =>
    simp only [List.any_cons, Bool.or_eq_false_iff] at h
    simp only [List.cons_append, List.find?, h.1]
    exact ih h.2

theorem find?_dictInsert {α : Type} (d : List (String × α)) (k : String) (v : α) :
    (dictInsert d k v).find? (fun kv => kv.1 == k) = some (k, v) := by
  unfold dictInsert
  by_cases h : d.any (fun kv => kv.1 == k) = true
  · rw [if_pos h]
    exact find?_map_replace d k v h
  · have h2 : d.any (fun kv => kv.1 == k) = false := by
      cases hb : d.any (fun kv => kv.1 == k) with
      | true => exact absurd hb h
      | false => rfl
    have hprop : ¬ (d.any (fun kv => kv.1 == k) = true) := by
      rw [h2]
      exact Bool.false_ne_true
    rw [if_neg hprop]
    exact find?_append_key d k v h2

theorem keys_filter_ne {α : Type} (d : List (String × α)) (n : String) :
    (d.filter (fun kv => kv.1 != n)).map Prod.fst = (d.map Prod.fst).filter (fun s => s != n) := by
  induction d with
  | nil => rfl
  | cons kv rest ih =>
    by_cases h : kv.1 = n
    · simp [List.filter_cons, h, ih]
    · simp [List.filter_cons, h, ih]

theorem removeFirst_eq_filter (l : List String) (n : String) (h : l.Nodup) :
    removeFirst l n = l.filter (fun x => x != n) := by
  induction l with
  | nil => rfl
  | cons x xs ih =>
    rw [List.nodup_cons] at h
    by_cases hx : x = n
    · subst hx
      have h1 : removeFirst (x :: xs) x = xs := by simp [removeFirst]
      have h2 : ¬ ((x != x) = true) := by simp
      rw [h1, List.filter_cons, if_neg h2]
      exact (List.filter_eq_self.mpr (fun a ha => by
        simp only [bne_iff_ne, ne_eq]
        exact fun he => h.1 (he ▸ ha))).symm
    · simp only [removeFirst, if_neg hx, List.filter_cons]
      rw [if_pos (by simpa using hx), ih h.2]

/-! ### Invariant preservation -/

theorem invariant_mem_iff (m : AirtableMultiManager) (h : CoordinatorInvariant m) (n : String) :
    n ∈ m.table_names ↔ n ∈ m.managers.map Prod.fst :=
  h.2.mem_iff

theorem invariant_add_table (m : AirtableMultiManager) (n : String)
    (h : CoordinatorInvariant m) : CoordinatorInvariant (add_table m n) := by
  obtain ⟨hnd, hperm⟩ := h
  unfold CoordinatorInvariant add_table
  simp only
  by_cases hc : n ∈ m.table_names
  · have hk : n ∈ m.managers.map Prod.fst := hperm.mem_iff.mp hc
    rw [if_pos hc, keys_dictInsert, if_pos hk]
    exact ⟨hnd, hperm⟩
  · have hk : n ∉ m.managers.map Prod.fst := fun hx => hc (hperm.mem_iff.mpr hx)
    rw [if_neg hc, keys_dictInsert, if_neg hk]
    constructor
    · rw [List.nodup_append]
      exact ⟨hnd, List.nodup_singleton n, by simpa [List.disjoint_singleton] using hc⟩
    · exact hperm.append_right [n]

theorem invariant_remove_table (m : AirtableMultiManager) (n : String)
    (h : CoordinatorInvariant m) : CoordinatorInvariant (remove_table m n).2 := by
  obtain ⟨hnd, hperm⟩ := h
  unfold remove_table
  by_cases hc : m.managers.any (fun kv => kv.1 == n) = true
  · rw [if_pos hc]
    refine ⟨?_, ?_⟩
    · rw [removeFirst_eq_filter _ _ hnd]
      exact hnd.filter _
    · rw [removeFirst_eq_filter _ _ hnd, keys_filter_ne]
      exact hperm.filter _
  · rw [if_neg hc]
    exact ⟨hnd, hperm⟩

theorem foldl_add_table_invariant (names : List String) :
    ∀ m : AirtableMultiManager, CoordinatorInvariant m →
      CoordinatorInvariant (names.foldl add_table m) := by
  induction names with
  | nil => intro m h; exact h
  | cons n rest ih =>
    intro m h
    rw [List.foldl_cons]
    exact ih _ (invariant_add_table m n h)

theorem foldl_discover_snd (names : List String) :
    ∀ (res : List (String × Bool)) (m : AirtableMultiManager),
      (names.foldl (fun acc n => (dictInsert acc.1 n true, add_table acc.2 n)) (res, m)).2 =
        names.foldl add_table m := by
  induction names with
  | nil => intro res m; rfl
  | cons n rest ih =>
    intro res m
    rw [List.foldl_cons, List.foldl_cons]
    exact ih _ _

theorem invariant_discover (response : Except String MetaResponse) (m : AirtableMultiManager)
    (h : CoordinatorInvariant m) :
    CoordinatorInvariant (discover_and_add_tables_from_base response m).2 := by
  unfold discover_and_add_tables_from_base
  cases hg : get_tables_from_base response with
  | none => exact h
  | some names =>
    simp only
    by_cases he : names = []
    · rw [if_pos he]
      exact h
    · rw [if_neg he, foldl_discover_snd]
      exact foldl_add_table_invariant names m h

theorem invariant_applyOp (m : AirtableMultiManager) (op : CoordinatorOp)
    (h : CoordinatorInvariant m) : CoordinatorInvariant (applyOp m op) := by
  cases op with
  | addT n => exact invariant_add_table m n h
  | removeT n => exact invariant_remove_table m n h
  | discover r => exact invariant_discover r m h

theorem invariant_applyOps (ops : List CoordinatorOp) :
    ∀ m : AirtableMultiManager, CoordinatorInvariant m →
      CoordinatorInvariant (applyOps m ops) := by
  induction ops with
  | nil => intro m h; exact h
  | cons op rest ih =>
    intro m h
    unfold applyOps
    rw [List.foldl_cons]
    exact ih _ (invariant_applyOp m op h)

theorem foldl_dictInsert_keys {α : Type} (f : String → α) (names : List String) :
    ∀ d : List (String × α), names.Nodup → (∀ x ∈ names, x ∉ d.map Prod.fst) →
      ((names.foldl (fun acc n => dictInsert acc n (f n)) d).map Prod.fst) =
        d.map Prod.fst ++ names := by
  induction names with
  | nil => intro d _ _; simp
  | cons n rest ih =>
    intro d hnd hd
    rw [List.nodup_cons] at hnd
    have hn : n ∉ d.map Prod.fst := hd n (List.mem_cons_self n rest)
    have hkeys : (dictInsert d n (f n)).map Prod.fst = d.map Prod.fst ++ [n] := by
      rw [keys_dictInsert, if_neg hn]
    have hrest : ∀ x ∈ rest, x ∉ (dictInsert d n (f n)).map Prod.fst := by
      intro x hx
      rw [hkeys, List.mem_append]
      rintro (hx1 | hx2)
      · exact hd x (List.mem_cons_of_mem n hx) hx1
      · exact hnd.1 ((by simpa using hx2 : x = n) ▸ hx)
    rw [List.foldl_cons, ih (dictInsert d n (f n)) hnd.2 hrest, hkeys, List.append_assoc]
    rfl

theorem invariant_mkMultiManager (api_key base_id : String) (table_names : Option (List String))
    (sqlite_storage : Option Nat) (freshStorage : Nat)
    (h : (table_names.getD ["DataHub_Craffft"]).Nodup) :
    CoordinatorInvariant (mkMultiManager api_key base_id table_names sqlite_storage freshStorage) := by
  unfold CoordinatorInvariant mkMultiManager
  simp only
  refine ⟨h, ?_⟩
  rw [foldl_dictInsert_keys
    (fun n => mkCSVManager base_id n api_key (sqlite_storage.getD freshStorage))
    (table_names.getD ["DataHub_Craffft"]) [] h (by simp)]
  simp

/-! ### Supporting lemmas about normalization -/

theorem mem_insertFieldName (acc : List String) (x n : String) :
    n ∈ insertFieldName acc x ↔ n ∈ acc ∨ n = x := by
  unfold insertFieldName
  by_cases h : x ∈ acc
  · rw [if_pos h]
    constructor
    · exact Or.inl
    · rintro (h1 | rfl)
      · exact h1
      · exact h
  · rw [if_neg h]
    simp

theorem mem_foldl_insertFieldName (l : List String) :
    ∀ (acc : List String) (n : String), n ∈ l.foldl insertFieldName acc ↔ n ∈ acc ∨ n ∈ l := by
  induction l with
  | nil => intro acc n; simp
  | cons x xs ih =>
    intro acc n
    rw [List.foldl_cons, ih, mem_insertFieldName]
    simp [or_assoc]

theorem mem_unionFieldNames (records : List AirtableRecord) (n : String) :
    n ∈ unionFieldNames records ↔ ∃ r ∈ records, n ∈ recordKeys r := by
  unfold unionFieldNames
  rw [mem_foldl_insertFieldName]
  simp [List.mem_flatten]

theorem csvCell_of_missing (fields : List (String × FieldValue)) (c : String)
    (h : c ∉ fields.map Prod.fst) : csvCell fields c = "" := by
  unfold csvCell
  have : fields.find? (fun kv => kv.1 == c) = none := by
    rw [List.find?_eq_none]
    intro kv hkv hbeq
    exact h (List.mem_map.mpr ⟨kv, hkv, by simpa using hbeq⟩)
  rw [this]
  rfl

theorem doubleQuotesAux_eq_flatMap (l : List Char) :
    doubleQuotesAux l = l.flatMap (fun c => if c = '"' then ['"', '"'] else [c]) := by
  induction l with
  | nil => rfl
  | cons c cs ih =>
    by_cases h : c = '"'
    · simp [doubleQuotesAux, h, ih]
    · simp [doubleQuotesAux, h, ih]

theorem commaCheckValue_eq_spec (v : FieldValue) :
    commaCheckValue v =
      match v with
      | .str s =>
        if s.data.contains ',' then
          FieldValue.str (String.mk (s.data.flatMap (fun c => if c = '"' then ['"', '"'] else [c])))
        else .str s
      | v => v := by
  cases v with
  | str s =>
    simp only [commaCheckValue]
    by_cases h : ',' ∈ s.data
    · simp [h, doubleQuotes, doubleQuotesAux_eq_flatMap]
    · simp [h]
  | num n => rfl
  | boolean b => rfl
  | null => rfl

theorem get_manager_eq_none (m : AirtableMultiManager) (t : String)
    (h : t ∉ m.managers.map Prod.fst) : get_manager m t = none := by
  unfold get_manager
  have : m.managers.find? (fun kv => kv.1 == t) = none := by
    rw [List.find?_eq_none]
    intro kv hkv hbeq
    exact h (List.mem_map.mpr ⟨kv, hkv, by simpa using hbeq⟩)
  rw [this]
  rfl

theorem mem_table_names_add_self (m : AirtableMultiManager) (n : String) :
    n ∈ (add_table m n).table_names := by
  unfold add_table
  by_cases hc : n ∈ m.table_names
  · simp only [if_pos hc]
    exact hc
  · simp [hc]

theorem get_manager_add_self (m : AirtableMultiManager) (n : String) :
    get_manager (add_table m n) n =
      some (mkCSVManager m.base_id n m.api_key m.sqlite_storage) := by
  unfold get_manager add_table
  simp only
  rw [find?_dictInsert]
  rfl

theorem remove_remove_self_false (m : AirtableMultiManager) (n : String) :
    (remove_table (remove_table m n).2 n).1 = false := by
  unfold remove_table
  by_cases hc : m.managers.any (fun kv => kv.1 == n) = true
  · have hfiltered : ((m.managers.filter (fun kv => kv.1 != n)).any (fun kv => kv.1 == n)) = false := by
      rw [List.any_eq_false]
      intro kv hkv
      have h2 := (List.mem_filter.mp hkv).2
      simp only [bne_iff_ne, ne_eq] at h2
      simpa using h2
    simp [hc, hfiltered]
  · have hc2 : m.managers.any (fun kv => kv.1 == n) = false := by
      cases hb : m.managers.any (fun kv => kv.1 == n) with
      | true => exact absurd hb hc
      | false => rfl
    simp [hc2]

/-! ### Claims -/

/-- C1 (code bug): at the input record whose field value is `He said "hi", bye`,
`update_csv_from_airtable` writes a serialized row that a standard CSV reader
parses back to `He said ""hi"", bye`, not the original value.  The quote
doubling performed by `record_comma_check` is applied a second time by the
`csv` writer, so the round-trip of the escaping does not recover the input. -/
theorem C1_roundtrip_failure :
    (update_csv_from_airtable ⟨"b", "T", "k", some 0⟩
        [⟨[("Message", FieldValue.str "He said \"hi\", bye")]⟩]).writes =
      [("T", "Message\r\n\"He said \"\"\"\"hi\"\"\"\", bye\"\r\n")] ∧
    parseCSVRow (csvRowString ["Message"]
        (record_comma_check ⟨[("Message", FieldValue.str "He said \"hi\", bye")]⟩).fields) =
      ["He said \"\"hi\"\", bye"] ∧
    ("He said \"\"hi\"\", bye" : String) ≠ "He said \"hi\", bye" := by
  refine ⟨by decide, by decide, by decide⟩

/-- C2 counterexample: a string field value containing a double quote but no
comma is left completely untouched by `record_comma_check`, so it is false
that every string-typed field value has its embedded quotes doubled. -/
theorem C2_quote_only_untouched :
    record_comma_check ⟨[("f", FieldValue.str "say \"hi\"")]⟩ =
      ⟨[("f", FieldValue.str "say \"hi\"")]⟩ ∧
    doubleQuotes "say \"hi\"" ≠ "say \"hi\"" := by
  refine ⟨by decide, by decide⟩

/-- C2 (amended): `record_comma_check` rewrites each field entry as follows —
a string value containing the comma delimiter has each embedded double-quote
character doubled (each `"` becomes `""`, all other characters, commas
included, are kept as-is and nothing wraps the value); a string value without
a comma, and every non-string value, is left untouched. -/
theorem C2_escaping_step (record : AirtableRecord) :
    (record_comma_check record).fields =
      record.fields.map (fun kv =>
        (kv.1,
         match kv.2 with
         | .str s =>
           if s.data.contains ',' then
             FieldValue.str
               (String.mk (s.data.flatMap (fun c => if c = '"' then ['"', '"'] else [c])))
           else .str s
         | v => v)) := by
  unfold record_comma_check
  simp only [AirtableRecord.mk.injEq]
  congr 1
  funext kv
  rw [commaCheckValue_eq_spec]

/-- C3: for a non-empty fetch, the data `update_csv_from_airtable` serializes
uses exactly the columns `unionFieldNames records`; that column list contains
a name iff some fetched record has the name among its field keys; each row is
serialized with exactly one cell per column; and a column missing from a
record's fields yields the empty cell. -/
theorem C3_union_of_columns (mgr : AirtableCSVManager) (records : List AirtableRecord)
    (h : records ≠ []) :
    (update_csv_from_airtable mgr records).writes =
      (if mgr.sqlite_storage.isSome then
        [(mgr.table_name,
          csvSerialize (unionFieldNames records) (records.map record_comma_check))]
      else []) ∧
    (∀ n, n ∈ unionFieldNames records ↔ ∃ r ∈ records, n ∈ recordKeys r) ∧
    (∀ fields : List (String × FieldValue),
      ((unionFieldNames records).map (csvCell fields)).length =
        (unionFieldNames records).length) ∧
    (∀ (fields : List (String × FieldValue)) (c : String),
      c ∉ fields.map Prod.fst → csvCell fields c = "") := by
  refine ⟨?_, mem_unionFieldNames records, fun fields => List.length_map _ _, csvCell_of_missing⟩
  unfold update_csv_from_airtable
  rw [if_neg h]

/-- C3 witness: a concrete two-record fetch with heterogeneous field sets. -/
theorem C3_union_of_columns_witness :
    (([⟨[("a", FieldValue.num 1)]⟩, ⟨[("b", FieldValue.str "x")]⟩] : List AirtableRecord) ≠ []) ∧
    ((update_csv_from_airtable ⟨"b", "T", "k", some 0⟩
        [⟨[("a", FieldValue.num 1)]⟩, ⟨[("b", FieldValue.str "x")]⟩]).writes =
      (if (⟨"b", "T", "k", some 0⟩ : AirtableCSVManager).sqlite_storage.isSome then
        [((⟨"b", "T", "k", some 0⟩ : AirtableCSVManager).table_name,
          csvSerialize (unionFieldNames [⟨[("a", FieldValue.num 1)]⟩, ⟨[("b", FieldValue.str "x")]⟩])
            ([⟨[("a", FieldValue.num 1)]⟩, ⟨[("b", FieldValue.str "x")]⟩].map record_comma_check))]
      else []) ∧
    (∀ n, n ∈ unionFieldNames [⟨[("a", FieldValue.num 1)]⟩, ⟨[("b", FieldValue.str "x")]⟩] ↔
      ∃ r ∈ ([⟨[("a", FieldValue.num 1)]⟩, ⟨[("b", FieldValue.str "x")]⟩] : List AirtableRecord),
        n ∈ recordKeys r) ∧
    (∀ fields : List (String × FieldValue),
      ((unionFieldNames [⟨[("a", FieldValue.num 1)]⟩, ⟨[("b", FieldValue.str "x")]⟩]).map
          (csvCell fields)).length =
        (unionFieldNames [⟨[("a", FieldValue.num 1)]⟩, ⟨[("b", FieldValue.str "x")]⟩]).length) ∧
    (∀ (fields : List (String × FieldValue)) (c : String),
      c ∉ fields.map Prod.fst → csvCell fields c = "")) :=
  ⟨by decide, C3_union_of_columns ⟨"b", "T", "k", some 0⟩ _ (by decide)⟩

/-- C4: an empty fetch result makes `update_csv_from_airtable` return `None`
(the no-data outcome) with no storage write; forwarded through the
coordinator it comes back as a normal return (`Except.ok`), not an error. -/
theorem C4_empty_fetch_noop (mgr : AirtableCSVManager) (m : AirtableMultiManager) (t : String)
    (h : get_manager m t ≠ none) :
    update_csv_from_airtable mgr [] = ⟨none, []⟩ ∧
    multi_update_csv_from_airtable (fun _ => .ok []) m t = .ok ⟨none, []⟩ := by
  constructor
  · rfl
  · unfold multi_update_csv_from_airtable
    cases hg : get_manager m t with
    | none => exact absurd hg h
    | some mgr2 => rfl

/-- C4 witness: the registered table "A" with a fetch returning zero records. -/
theorem C4_empty_fetch_noop_witness :
    (get_manager (mkMultiManager "k" "b" (some ["A"]) none 0) "A" ≠ none) ∧
    (update_csv_from_airtable ⟨"b", "T", "k", some 0⟩ [] = ⟨none, []⟩ ∧
     multi_update_csv_from_airtable (fun _ => .ok [])
       (mkMultiManager "k" "b" (some ["A"]) none 0) "A" = .ok ⟨none, []⟩) :=
  ⟨by decide, C4_empty_fetch_noop ⟨"b", "T", "k", some 0⟩ _ "A" (by decide)⟩

/-- C5: for a table name with no registered handle, `get_value`,
`execute_sql_query`, the spec-modelled `lookup_row`, and the coordinator's
`update_csv_from_airtable` all return a null result; none of them raises (the
sync path returns `Except.ok`, and the remote fetch is never consulted). -/
theorem C5_unknown_table_safety (st : StorageModel) (m : AirtableMultiManager)
    (fetch : String → Except String (List AirtableRecord)) (t c r tc q : String)
    (h : t ∉ m.managers.map Prod.fst) :
    multi_get_value st m t c r tc = none ∧
    multi_execute_sql_query st m t q = none ∧
    multi_lookup_row st m t c r = none ∧
    multi_update_csv_from_airtable fetch m t = .ok ⟨none, []⟩ := by
  have hg : get_manager m t = none := get_manager_eq_none m t h
  refine ⟨?_, ?_, ?_, ?_⟩ <;>
    simp [multi_get_value, multi_execute_sql_query, multi_lookup_row,
      multi_update_csv_from_airtable, hg]

/-- C5 witness: the name "Z" was never registered with the coordinator. -/
theorem C5_unknown_table_safety_witness :
    ("Z" ∉ (mkMultiManager "k" "b" (some ["A"]) none 0).managers.map Prod.fst) ∧
    (multi_get_value ⟨fun _ _ _ => none, fun _ _ _ _ => none, fun _ _ => none⟩
        (mkMultiManager "k" "b" (some ["A"]) none 0) "Z" "c" "r" "t" = none ∧
     multi_execute_sql_query ⟨fun _ _ _ => none, fun _ _ _ _ => none, fun _ _ => none⟩
        (mkMultiManager "k" "b" (some ["A"]) none 0) "Z" "q" = none ∧
     multi_lookup_row ⟨fun _ _ _ => none, fun _ _ _ _ => none, fun _ _ => none⟩
        (mkMultiManager "k" "b" (some ["A"]) none 0) "Z" "c" "r" = none ∧
     multi_update_csv_from_airtable (fun _ => .ok [])
        (mkMultiManager "k" "b" (some ["A"]) none 0) "Z" = .ok ⟨none, []⟩) :=
  ⟨by decide,
   C5_unknown_table_safety ⟨fun _ _ _ => none, fun _ _ _ _ => none, fun _ _ => none⟩
     (mkMultiManager "k" "b" (some ["A"]) none 0) (fun _ => .ok []) "Z" "c" "r" "t" "q"
     (by decide)⟩

/-- C6: `update_all_tables` produces exactly one outcome per registered table
(its keys are exactly the managers dict keys, in order), and in the concrete
three-table scenario where only table "B"'s fetch raises, it returns a
success message, a captured-error marker, and a success message. -/
theorem C6_bulk_partial_failure :
    (∀ (fetch : String → Except String (List AirtableRecord)) (m : AirtableMultiManager),
      (update_all_tables fetch m).map Prod.fst = m.managers.map Prod.fst) ∧
    update_all_tables
        (fun t => if t = "B" then .error "boom" else .ok [⟨[("f", FieldValue.str "v")]⟩])
        (mkMultiManager "k" "b" (some ["A", "B", "C"]) none 0) =
      [("A", "Successfully updated DB from Airtable for table A."),
       ("B", "Error: boom"),
       ("C", "Successfully updated DB from Airtable for table C.")] := by
  constructor
  · intro fetch m
    unfold update_all_tables
    rw [List.map_map]
    rfl
  · decide

/-- C7 counterexample: on the coordinator constructed with the duplicated
initial list `["X", "X"]`, adding "X" twice still leaves two registered
name entries "X", so the claim fails for that (constructible) coordinator
state; it holds for states satisfying the bijection invariant. -/
theorem C7_duplicate_state_two_entries :
    (add_table (add_table (mkMultiManager "k" "b" (some ["X", "X"]) none 0) "X") "X").table_names.count "X" = 2 ∧
    (2 : Nat) ≠ 1 := by
  refine ⟨by decide, by decide⟩

/-- C7 (amended): under the coordinator invariant, adding "X" twice registers exactly
one entry named "X" in the name list and exactly one handle keyed "X", the
handle is the fresh one bound to the coordinator's shared storage, and the
second of two successive `remove_table "X"` calls returns `false`. -/
theorem C7_add_remove_idempotence (m : AirtableMultiManager) (X : String)
    (h : CoordinatorInvariant m) :
    (add_table (add_table m X) X).table_names.count X = 1 ∧
    ((add_table (add_table m X) X).managers.map Prod.fst).count X = 1 ∧
    get_manager (add_table (add_table m X) X) X =
      some (mkCSVManager m.base_id X m.api_key m.sqlite_storage) ∧
    (remove_table (remove_table m X).2 X).1 = false := by
  have h1 : CoordinatorInvariant (add_table m X) := invariant_add_table m X h
  have h2 : CoordinatorInvariant (add_table (add_table m X) X) :=
    invariant_add_table _ X h1
  have hmem : X ∈ (add_table (add_table m X) X).table_names :=
    mem_table_names_add_self _ X
  refine ⟨List.count_eq_one_of_mem h2.1 hmem, ?_, ?_, remove_remove_self_false m X⟩
  · exact List.count_eq_one_of_mem (h2.2.nodup_iff.mp h2.1) (h2.2.mem_iff.mp hmem)
  · exact get_manager_add_self (add_table m X) X

/-- C7 witness: a concrete one-table coordinator and the fresh name "X". -/
theorem C7_add_remove_idempotence_witness :
    CoordinatorInvariant (mkMultiManager "k" "b" (some ["A"]) none 0) ∧
    ((add_table (add_table (mkMultiManager "k" "b" (some ["A"]) none 0) "X") "X").table_names.count "X" = 1 ∧
     ((add_table (add_table (mkMultiManager "k" "b" (some ["A"]) none 0) "X") "X").managers.map Prod.fst).count "X" = 1 ∧
     get_manager (add_table (add_table (mkMultiManager "k" "b" (some ["A"]) none 0) "X") "X") "X" =
       some (mkCSVManager (mkMultiManager "k" "b" (some ["A"]) none 0).base_id "X"
         (mkMultiManager "k" "b" (some ["A"]) none 0).api_key
         (mkMultiManager "k" "b" (some ["A"]) none 0).sqlite_storage) ∧
     (remove_table (remove_table (mkMultiManager "k" "b" (some ["A"]) none 0) "X").2 "X").1 = false) :=
  ⟨by decide, C7_add_remove_idempotence (mkMultiManager "k" "b" (some ["A"]) none 0) "X" (by decide)⟩

/-- C8 counterexample: constructing the coordinator with the duplicated
initial table list `["A", "A"]` leaves the name list with a duplicate while
only one handle exists, so the bijection invariant fails after construction
with that initial table-name list. -/
theorem C8_duplicate_init_breaks_invariant :
    ¬ CoordinatorInvariant (mkMultiManager "k" "b" (some ["A", "A"]) none 0) := by
  decide

/-- C8 (amended): for every duplicate-free initial table-name list (and for
the default list), the bijection invariant — the registered name list is
duplicate-free and in one-to-one correspondence with the managers dict keys —
holds after construction and after every sequence of `add_table`,
`remove_table`, and `discover_and_add_tables_from_base` operations. -/
theorem C8_bijection_invariant (api_key base_id : String)
    (table_names : Option (List String)) (sqlite_storage : Option Nat) (freshStorage : Nat)
    (ops : List CoordinatorOp) (h : (table_names.getD ["DataHub_Craffft"]).Nodup) :
    CoordinatorInvariant
      (applyOps (mkMultiManager api_key base_id table_names sqlite_storage freshStorage) ops) :=
  invariant_applyOps ops _
    (invariant_mkMultiManager api_key base_id table_names sqlite_storage freshStorage h)

/-- C8 witness: a duplicate-free initial list and a concrete operation
sequence covering add, remove and discovery. -/
theorem C8_bijection_invariant_witness :
    (((some ["A", "B"] : Option (List String)).getD ["DataHub_Craffft"]).Nodup) ∧
    CoordinatorInvariant
      (applyOps (mkMultiManager "k" "b" (some ["A", "B"]) none 0)
        [CoordinatorOp.addT "C", CoordinatorOp.removeT "A",
         CoordinatorOp.discover (Except.ok ⟨200, ["D", "B"]⟩)]) :=
  ⟨by decide, C8_bijection_invariant "k" "b" (some ["A", "B"]) none 0 _ (by decide)⟩

/-- C9: every metadata-request failure — a transport exception or a non-200
status — makes `get_tables_from_base` return `none` without raising, and
whenever discovery returns `none`, `discover_and_add_tables_from_base`
returns an empty result map (and leaves the coordinator unchanged). -/
theorem C9_discovery_failure_swallowed :
    (∀ e : String, get_tables_from_base (.error e) = none) ∧
    (∀ r : MetaResponse, r.status_code ≠ 200 → get_tables_from_base (.ok r) = none) ∧
    (∀ (response : Except String MetaResponse) (m : AirtableMultiManager),
      get_tables_from_base response = none →
      (discover_and_add_tables_from_base response m).1 = [] ∧
      (discover_and_add_tables_from_base response m).2 = m) := by
  refine ⟨fun e => rfl, ?_, ?_⟩
  · intro r hr
    show (if r.status_code = 200 then some r.tables else none) = none
    rw [if_neg hr]
  · intro response m hnone
    unfold discover_and_add_tables_from_base
    rw [hnone]
    exact ⟨rfl, rfl⟩

/-- C9 witness: a transport exception and a 500-status response. -/
theorem C9_discovery_failure_swallowed_witness :
    get_tables_from_base (.error "boom") = none ∧
    ((⟨500, ["T"]⟩ : MetaResponse).status_code ≠ 200 ∧
      get_tables_from_base (.ok ⟨500, ["T"]⟩) = none) ∧
    (discover_and_add_tables_from_base (.error "boom")
        (mkMultiManager "k" "b" none none 0)).1 = [] :=
  ⟨C9_discovery_failure_swallowed.1 "boom",
   ⟨by decide, C9_discovery_failure_swallowed.2.1 ⟨500, ["T"]⟩ (by decide)⟩,
   (C9_discovery_failure_swallowed.2.2 (.error "boom") (mkMultiManager "k" "b" none none 0)
      (C9_discovery_failure_swallowed.1 "boom")).1⟩

/-- C10: with no storage backend configured and a non-empty fetch,
`update_csv_from_airtable` still returns the success descriptor naming the
table while performing no storage write. -/
theorem C10_success_without_storage (mgr : AirtableCSVManager) (records : List AirtableRecord)
    (h1 : mgr.sqlite_storage = none) (h2 : records ≠ []) :
    (update_csv_from_airtable mgr records).result =
      some ("Successfully updated DB from Airtable for table " ++ mgr.table_name ++ ".") ∧
    (update_csv_from_airtable mgr records).writes = [] := by
  unfold update_csv_from_airtable
  rw [if_neg h2]
  simp [h1]

/-- C10 witness: a storage-less manager and a one-record fetch. -/
theorem C10_success_without_storage_witness :
    ((⟨"b", "T", "k", none⟩ : AirtableCSVManager).sqlite_storage = none ∧
     ([⟨[("f", FieldValue.str "v")]⟩] : List AirtableRecord) ≠ []) ∧
    ((update_csv_from_airtable ⟨"b", "T", "k", none⟩ [⟨[("f", FieldValue.str "v")]⟩]).result =
      some ("Successfully updated DB from Airtable for table " ++
        (⟨"b", "T", "k", none⟩ : AirtableCSVManager).table_name ++ ".") ∧
     (update_csv_from_airtable ⟨"b", "T", "k", none⟩ [⟨[("f", FieldValue.str "v")]⟩]).writes = []) :=
  ⟨⟨rfl, by decide⟩,
   C10_success_without_storage ⟨"b", "T", "k", none⟩ [⟨[("f", FieldValue.str "v")]⟩] rfl (by decide)⟩

end Craffft
